import Mathlib

/-!
Shallow embedding of `src/configure_switch.py` (repository Sparq), a P4Runtime
control-plane client that configures a switch pipeline and installs two table
entries: a ternary match on the TCP SYN flag (forward to controller,
priority 100) and a default wildcard entry (drop, priority 10).

The embedding mirrors the source faithfully:
  * the P4Info schema is a list of tables (each with a preamble and match
    fields) and a list of actions (each with a preamble);
  * `get_id` is the source's name-to-ID resolver, including its failure
    behaviour: for `"table"`/`"action"` a not-found name returns `None`
    (modelled `GetIdResult.noneRes`), while for `"header_field"` a not-found
    name falls through to `for entity in entities:` with the local `entities`
    never assigned, raising `UnboundLocalError`
    (modelled `GetIdResult.unboundLocalError`);
  * Python protobuf message constructors skip keyword arguments whose value is
    `None`, leaving scalar fields at their default `0`
    (modelled by `protoScalar`);
  * `int.to_bytes(length, "big")` raises `OverflowError` when the integer does
    not fit (modelled by `to_bytes` returning `none`).
-/

deriving instance DecidableEq for Except

namespace Sparq

/-- A match-field descriptor of a P4Info table: declared name, numeric ID and
bit-width (protobuf `MatchField`). -/
structure MatchFieldInfo where
  name : String
  id : Nat
  bitwidth : Nat
deriving DecidableEq

/-- A P4Info preamble: the declared name and numeric ID of an entity. -/
structure Preamble where
  name : String
  id : Nat
deriving DecidableEq

/-- A P4Info table descriptor: preamble plus its match fields. -/
structure Table where
  preamble : Preamble
  match_fields : List MatchFieldInfo
deriving DecidableEq

/-- A P4Info action descriptor (p4.config.v1 `Action`): just its preamble. -/
structure P4InfoAction where
  preamble : Preamble
deriving DecidableEq

/-- The parsed P4Info schema: the collections `get_id` scans. -/
structure P4Info where
  tables : List Table
  actions : List P4InfoAction
deriving DecidableEq

/-- The loop `for entity in entities: if entity_name == entity.preamble.name:
return entity.preamble.id` of `get_id`, specialised to the tables collection. -/
def searchTables : List Table → String → Option Nat
  | [], _ => none
  | t :: ts, n => if n = t.preamble.name then some t.preamble.id else searchTables ts n

/-- The same search loop over the actions collection. -/
def searchActions : List P4InfoAction → String → Option Nat
  | [], _ => none
  | a :: as_, n => if n = a.preamble.name then some a.preamble.id else searchActions as_ n

/-- The inner loop of `get_id`'s `"header_field"` branch: first field of one
table whose `name` equals the query, returning `(field.id, field.bitwidth)`. -/
def searchMatchFields : List MatchFieldInfo → String → Option (Nat × Nat)
  | [], _ => none
  | f :: fs, n => if n = f.name then some (f.id, f.bitwidth) else searchMatchFields fs n

/-- The nested loops of `get_id`'s `"header_field"` branch: scan every table's
match fields in order, returning the first hit. -/
def findHeaderField : List Table → String → Option (Nat × Nat)
  | [], _ => none
  | t :: ts, n =>
    match searchMatchFields t.match_fields n with
    | some r => some r
    | none => findHeaderField ts n

/-- The possible outcomes of a `get_id` call in the source:
`id` — an entity was found, its `preamble.id` is returned;
`fieldInfo` — a header field was found, `(field.id, field.bitwidth)` returned;
`noneRes` — the Python `return None` (both the not-found return at the end of
the function and the unsupported-entity-type return);
`unboundLocalError` — `get_id` raised: the `"header_field"` branch found no
field and fell through to `for entity in entities:` with `entities` unbound. -/
inductive GetIdResult where
  | id (n : Nat)
  | fieldInfo (fieldId bitwidth : Nat)
  | noneRes
  | unboundLocalError
deriving DecidableEq

/-- `get_id(p4info, entity_type, entity_name)` of the source. -/
def get_id (p4info : P4Info) (entity_type entity_name : String) : GetIdResult :=
  if entity_type = "table" then
    match searchTables p4info.tables entity_name with
    | some i => GetIdResult.id i
    | none => GetIdResult.noneRes
  else if entity_type = "action" then
    match searchActions p4info.actions entity_name with
    | some i => GetIdResult.id i
    | none => GetIdResult.noneRes
  else if entity_type = "header_field" then
    match findHeaderField p4info.tables entity_name with
    | some (i, bw) => GetIdResult.fieldInfo i bw
    | none => GetIdResult.unboundLocalError
  else
    GetIdResult.noneRes

/-- Which diagnostic line `get_id` prints before returning (projection of the
source's `print` calls on the same branches as `get_id`): `found` for the
`Found : ...` line, `notFound` for `Error: ... not found`, `unsupportedType`
for `Error: Unsupported entity_type ...`; `crash` marks the path that prints
nothing because it raises `UnboundLocalError` first. -/
inductive GetIdDiag where
  | found
  | notFound
  | unsupportedType
  | crash
deriving DecidableEq

/-- The diagnostic emitted by `get_id`, branch for branch. -/
def get_id_diag (p4info : P4Info) (entity_type entity_name : String) : GetIdDiag :=
  if entity_type = "table" then
    match searchTables p4info.tables entity_name with
    | some _ => GetIdDiag.found
    | none => GetIdDiag.notFound
  else if entity_type = "action" then
    match searchActions p4info.actions entity_name with
    | some _ => GetIdDiag.found
    | none => GetIdDiag.notFound
  else if entity_type = "header_field" then
    match findHeaderField p4info.tables entity_name with
    | some _ => GetIdDiag.found
    | none => GetIdDiag.crash
  else
    GetIdDiag.unsupportedType

/-- Big-endian byte list of `v` in exactly `len` bytes (the list of byte values
that Python's `int.to_bytes(len, byteorder="big")` produces when it fits). -/
def bigEndianBytes : Nat → Nat → List Nat
  | _, 0 => []
  | v, len + 1 => bigEndianBytes (v / 256) len ++ [v % 256]

/-- Python's `int.to_bytes(len, byteorder="big")`: `none` models the
`OverflowError` raised when the integer needs more than `len` bytes. -/
def to_bytes (v len : Nat) : Option (List Nat) :=
  if v < 256 ^ len then some (bigEndianBytes v len) else none

/-- Decode a byte list as a big-endian integer (the inverse direction the spec
asks for when it says the numeric value is recoverable from the bytes). -/
def fromBytesBE (bs : List Nat) : Nat :=
  bs.foldl (fun acc b => acc * 256 + b) 0

/-- p4runtime `FieldMatch.Ternary`: value and mask byte strings. -/
structure Ternary where
  value : List Nat
  mask : List Nat
deriving DecidableEq

/-- p4runtime `FieldMatch` with a ternary match (the only kind the source
builds). -/
structure FieldMatch where
  field_id : Nat
  ternary : Ternary
deriving DecidableEq

/-- p4runtime `Action` (p4.v1): the chosen action's numeric ID; the source
passes no action parameters. -/
structure Action where
  action_id : Nat
deriving DecidableEq

/-- p4runtime `TableAction` wrapping an `Action`. -/
structure TableAction where
  action : Action
deriving DecidableEq

/-- p4runtime `TableEntry`: table ID, match list (`match` in the proto; empty
when the source builds the default entry), action, priority. -/
structure TableEntry where
  table_id : Nat
  «match» : List FieldMatch
  action : TableAction
  priority : Nat
deriving DecidableEq

/-- p4runtime `Update.Type`; the source only ever uses `INSERT`. -/
inductive UpdateType where
  | INSERT
deriving DecidableEq

/-- p4runtime `Entity` as used here: a table entry. -/
structure Entity where
  table_entry : TableEntry
deriving DecidableEq

/-- p4runtime `Update`: operation kind plus the entity. -/
structure Update where
  type : UpdateType
  entity : Entity
deriving DecidableEq

/-- p4runtime `Uint128`, the election identity. -/
structure Uint128 where
  high : Nat
  low : Nat
deriving DecidableEq

/-- p4runtime `WriteRequest`: device ID, election identity, updates. -/
structure WriteRequest where
  device_id : Nat
  election_id : Uint128
  updates : List Update
deriving DecidableEq

/-- The gRPC error object caught as `grpc.RpcError e`: the source prints
`e.code()`, `e.details()` and `e.debug_error_string()` before re-raising. -/
structure RpcError where
  code : Nat
  details : String
  debug_error_string : String
deriving DecidableEq

/-- The exceptions the script can raise:
`unboundLocal` — `get_id` fell through with `entities` unbound;
`typeError` — tuple-unpacking a non-tuple `get_id` result (dead code here,
kept for faithfulness of the unpack at `header_field_id, field_offset = ...`);
`overflow` — `int.to_bytes` did not fit;
`rpc e` — a `grpc.RpcError` re-raised by an install function;
`pipelineError msg` — `setup_p4_pipeline` failed (file, parse or gRPC error,
abstracted as a message since it happens outside the modelled pure core). -/
inductive PyError where
  | unboundLocal
  | typeError
  | overflow
  | rpc (e : RpcError)
  | pipelineError (msg : String)
deriving DecidableEq

/-- Python protobuf constructors skip keyword arguments whose value is `None`
(`field=None` is the same as no field at all), leaving the scalar at its
default `0`. `get_id` hands the builders either an ID or `None`; this is the
scalar the protobuf message ends up storing. The `fieldInfo` and
`unboundLocalError` cases never reach a scalar field in the source. -/
def protoScalar : GetIdResult → Nat
  | GetIdResult.id n => n
  | _ => 0

/-- The `election_id = (1, 0)` constant of the script. -/
def election_id : Nat × Nat := (1, 0)

/-- The `device_id = 0` constant of the script. -/
def device_id : Nat := 0

/-- `insert_syn_flag_entry` up to (and including) building the `WriteRequest`
(source lines 130-191): resolve `MyIngress.syn_flag_table`, `hdr.tcp.flags`
and `MyIngress.forward_to_controller`, encode `syn_flag_value` in one
big-endian byte with hard-coded mask byte `0x02`, and build a priority-100
ternary entry wrapped in one INSERT update in one request. Errors are the
exceptions the Python would raise before the request exists. -/
def insert_syn_flag_entry_request (p4info : P4Info) (did : Nat) (eid : Nat × Nat)
    (syn_flag_value : Nat) : Except PyError WriteRequest :=
  let table_id := get_id p4info "table" "MyIngress.syn_flag_table"
  match get_id p4info "header_field" "hdr.tcp.flags" with
  | GetIdResult.unboundLocalError => Except.error PyError.unboundLocal
  | GetIdResult.id _ => Except.error PyError.typeError
  | GetIdResult.noneRes => Except.error PyError.typeError
  | GetIdResult.fieldInfo header_field_id _field_offset =>
    let action_id := get_id p4info "action" "MyIngress.forward_to_controller"
    match to_bytes syn_flag_value 1 with
    | none => Except.error PyError.overflow
    | some value_bytes =>
      Except.ok
        { device_id := did
          election_id := { high := eid.1, low := eid.2 }
          updates :=
            [{ type := UpdateType.INSERT
               entity :=
                 { table_entry :=
                     { table_id := protoScalar table_id
                       «match» :=
                         [{ field_id := header_field_id
                            ternary :=
                              { value := value_bytes
                                mask := bigEndianBytes 2 1 } }]
                       action := { action := { action_id := protoScalar action_id } }
                       priority := 100 } } }] }

/-- `insert_default_drop_entry` up to building the `WriteRequest` (source
lines 209-258): resolve `MyIngress.syn_flag_table` and `MyIngress._drop`,
build a priority-10 entry with no match fields wrapped in one INSERT update in
one request. No path of this builder raises, so the result is total. -/
def insert_default_drop_entry_request (p4info : P4Info) (did : Nat)
    (eid : Nat × Nat) : WriteRequest :=
  let table_id := get_id p4info "table" "MyIngress.syn_flag_table"
  let action_id := get_id p4info "action" "MyIngress._drop"
  { device_id := did
    election_id := { high := eid.1, low := eid.2 }
    updates :=
      [{ type := UpdateType.INSERT
         entity :=
           { table_entry :=
               { table_id := protoScalar table_id
                 «match» := []
                 action := { action := { action_id := protoScalar action_id } }
                 priority := 10 } } }] }

/-- The structured diagnostic the `except grpc.RpcError` blocks print:
status classification, human-readable detail, raw diagnostic payload. -/
structure WriteDiagnostic where
  status_code : Nat
  details : String
  debug_error_string : String
deriving DecidableEq

/-- The `try: stub.Write(request) ... except grpc.RpcError as e: ... raise`
block shared by both install functions: on success no diagnostic and a normal
return, on an RPC error the three-line structured diagnostic and the re-raised
exception. The stub is the transport: `none` is an ack, `some e` a failure. -/
def try_write (stub : WriteRequest → Option RpcError) (req : WriteRequest) :
    Option WriteDiagnostic × Except PyError Unit :=
  match stub req with
  | none => (none, Except.ok ())
  | some e =>
    (some { status_code := e.code
            details := e.details
            debug_error_string := e.debug_error_string },
     Except.error (PyError.rpc e))

/-- The whole of `insert_syn_flag_entry`: build the request, then transmit it.
Result: the list of requests actually handed to `stub.Write` (empty when an
exception fired before the write), the diagnostic printed by the except block
if any, and the function's outcome. -/
def insert_syn_flag_entry (p4info : P4Info) (did : Nat) (eid : Nat × Nat)
    (stub : WriteRequest → Option RpcError) (syn_flag_value : Nat) :
    List WriteRequest × Option WriteDiagnostic × Except PyError Unit :=
  match insert_syn_flag_entry_request p4info did eid syn_flag_value with
  | Except.error e => ([], none, Except.error e)
  | Except.ok req => ([req], (try_write stub req).1, (try_write stub req).2)

/-- The whole of `insert_default_drop_entry`: build the request, transmit it.
Construction never raises, so exactly one write is always attempted. -/
def insert_default_drop_entry (p4info : P4Info) (did : Nat) (eid : Nat × Nat)
    (stub : WriteRequest → Option RpcError) :
    List WriteRequest × Option WriteDiagnostic × Except PyError Unit :=
  let req := insert_default_drop_entry_request p4info did eid
  ([req], (try_write stub req).1, (try_write stub req).2)

/-- The module top level (source lines 274-291): `setup_p4_pipeline`, then
`insert_syn_flag_entry(..., 0x002)`, then `insert_default_drop_entry`, each
step running only if the previous one did not raise. The pipeline step is
abstracted as its outcome (it is file and network I/O); on success it yields
the parsed `P4Info` the client carries. The result is the ordered list of
write requests handed to the transport and the uncaught exception, if any. -/
def script_main (pipeline : Except String P4Info)
    (stub : WriteRequest → Option RpcError) :
    List WriteRequest × Option PyError :=
  match pipeline with
  | Except.error msg => ([], some (PyError.pipelineError msg))
  | Except.ok p4info =>
    let syn := insert_syn_flag_entry p4info device_id election_id stub 0x002
    match syn.2.2 with
    | Except.error e => (syn.1, some e)
    | Except.ok _ =>
      let drop := insert_default_drop_entry p4info device_id election_id stub
      match drop.2.2 with
      | Except.error e => (syn.1 ++ drop.1, some e)
      | Except.ok _ => (syn.1 ++ drop.1, none)

/-- Modelled from the spec (glossary "Ternary match" and §4.3): a ternary
field match accepts a packet byte when, under the mask, the packet bits agree
with the value bits — a `1` mask bit requires equality, a `0` mask bit is a
wildcard. Value and mask bytes are decoded big-endian. -/
def fieldMatchAccepts (fm : FieldMatch) (flags : Nat) : Bool :=
  flags &&& fromBytesBE fm.ternary.mask == fromBytesBE fm.ternary.value &&& fromBytesBE fm.ternary.mask

/-- Modelled from the spec (§3 TableEntry): an entry structurally matches a
packet's flags byte when every field match accepts it; an empty match list is
a wildcard/default entry matching every packet. -/
def entryMatchesFlags (e : TableEntry) (flags : Nat) : Bool :=
  e.«match».all (fun fm => fieldMatchAccepts fm flags)

/-- Modelled from the spec (glossary "Priority": integer used by the device to
pick among multiple structurally-matching entries; higher wins): a conformant
device's selection between two installed entries for a given flags byte. -/
def selectByPriority (e1 e2 : TableEntry) (flags : Nat) : Option TableEntry :=
  match entryMatchesFlags e1 flags, entryMatchesFlags e2 flags with
  | true, true => if e2.priority > e1.priority then some e2 else some e1
  | true, false => some e1
  | false, true => some e2
  | false, false => none

/-- The table entries carried by a write request, in order. -/
def requestEntries (r : WriteRequest) : List TableEntry :=
  r.updates.map (fun u => u.entity.table_entry)

/-- The table IDs carried by a write request, in order. -/
def requestTableIds (r : WriteRequest) : List Nat :=
  (requestEntries r).map TableEntry.table_id

/-- The action IDs carried by a write request, in order. -/
def requestActionIds (r : WriteRequest) : List Nat :=
  (requestEntries r).map (fun e => e.action.action.action_id)

/-- The SYN-matching table entry the builder produces on `sampleP4Info`. -/
def sampleSynEntry : TableEntry :=
  { table_id := 1
    «match» := [{ field_id := 10, ternary := { value := [0x02], mask := [0x02] } }]
    action := { action := { action_id := 5 } }
    priority := 100 }

/-- The default-drop table entry the builder produces on `sampleP4Info`. -/
def sampleDropEntry : TableEntry :=
  { table_id := 1
    «match» := []
    action := { action := { action_id := 6 } }
    priority := 10 }

/-- The ternary matches carried by a write request, in order. -/
def requestTernaries (r : WriteRequest) : List Ternary :=
  (requestEntries r).flatMap (fun e => e.«match».map FieldMatch.ternary)

/-- A concrete schema of the shape the claims describe: table
`MyIngress.syn_flag_table` (ID 1) carrying match field `hdr.tcp.flags`
(ID 10, bitwidth 8), actions `MyIngress.forward_to_controller` (ID 5) and
`MyIngress._drop` (ID 6). -/
def sampleP4Info : P4Info :=
  { tables :=
      [{ preamble := { name := "MyIngress.syn_flag_table", id := 1 }
         match_fields := [{ name := "hdr.tcp.flags", id := 10, bitwidth := 8 }] }]
    actions :=
      [{ preamble := { name := "MyIngress.forward_to_controller", id := 5 } },
       { preamble := { name := "MyIngress._drop", id := 6 } }] }

/-- Like `sampleP4Info` but `hdr.tcp.flags` is declared 16 bits wide. -/
def wideFieldP4Info : P4Info :=
  { tables :=
      [{ preamble := { name := "MyIngress.syn_flag_table", id := 1 }
         match_fields := [{ name := "hdr.tcp.flags", id := 10, bitwidth := 16 }] }]
    actions :=
      [{ preamble := { name := "MyIngress.forward_to_controller", id := 5 } },
       { preamble := { name := "MyIngress._drop", id := 6 } }] }

/-- A schema in which the syn table is missing (a differently named table
still declares `hdr.tcp.flags`) while both actions exist. -/
def noSynTableP4Info : P4Info :=
  { tables :=
      [{ preamble := { name := "MyIngress.other_table", id := 7 }
         match_fields := [{ name := "hdr.tcp.flags", id := 10, bitwidth := 8 }] }]
    actions :=
      [{ preamble := { name := "MyIngress.forward_to_controller", id := 5 } },
       { preamble := { name := "MyIngress._drop", id := 6 } }] }

/-- A schema with the syn table and its flags field but no actions at all, so
both action names fail to resolve. -/
def noActionsP4Info : P4Info :=
  { tables :=
      [{ preamble := { name := "MyIngress.syn_flag_table", id := 1 }
         match_fields := [{ name := "hdr.tcp.flags", id := 10, bitwidth := 8 }] }]
    actions := [] }

/-- A transport stub that acknowledges every write. -/
def ackStub : WriteRequest → Option RpcError := fun _ => none

/-- A concrete RPC failure, of the shape a duplicate-entry rejection takes. -/
def sampleRpcError : RpcError :=
  { code := 6, details := "entity already exists", debug_error_string := "raw diagnostic" }

/-- A transport stub that rejects every write with `sampleRpcError`. -/
def failStub : WriteRequest → Option RpcError := fun _ => some sampleRpcError

/-- The request the SYN builder produces on `sampleP4Info` with value 2. -/
def sampleSynRequest : WriteRequest :=
  { device_id := 0
    election_id := { high := 1, low := 0 }
    updates :=
      [{ type := UpdateType.INSERT
         entity :=
           { table_entry :=
               { table_id := 1
                 «match» :=
                   [{ field_id := 10
                      ternary := { value := [0x02], mask := [0x02] } }]
                 action := { action := { action_id := 5 } }
                 priority := 100 } } }] }

/-- The request the default-drop builder produces on `sampleP4Info`. -/
def sampleDropRequest : WriteRequest :=
  { device_id := 0
    election_id := { high := 1, low := 0 }
    updates :=
      [{ type := UpdateType.INSERT
         entity :=
           { table_entry :=
               { table_id := 1
                 «match» := []
                 action := { action := { action_id := 6 } }
                 priority := 10 } } }] }

/-- C1: on a schema resolving `MyIngress.syn_flag_table` to 1, `hdr.tcp.flags`
to field 10 of width 8 and `MyIngress.forward_to_controller` to 5, the
SYN-install builder called with value `0x02` produces exactly one WriteRequest
holding one INSERT update whose TableEntry has table_id 1, a single ternary
FieldMatch on field 10 with value bytes `[0x02]` and mask bytes `[0x02]`,
action 5 and priority 100. -/
theorem syn_install_builds_claimed_request (p4info : P4Info)
    (ht : get_id p4info "table" "MyIngress.syn_flag_table" = GetIdResult.id 1)
    (hf : get_id p4info "header_field" "hdr.tcp.flags" = GetIdResult.fieldInfo 10 8)
    (ha : get_id p4info "action" "MyIngress.forward_to_controller" = GetIdResult.id 5) :
    insert_syn_flag_entry_request p4info device_id election_id 0x02 =
      Except.ok
        { device_id := 0
          election_id := { high := 1, low := 0 }
          updates :=
            [{ type := UpdateType.INSERT
               entity :=
                 { table_entry :=
                     { table_id := 1
                       «match» :=
                         [{ field_id := 10
                            ternary := { value := [0x02], mask := [0x02] } }]
                       action := { action := { action_id := 5 } }
                       priority := 100 } } }] } := by
  simp [insert_syn_flag_entry_request, ht, hf, ha, to_bytes, protoScalar,
    bigEndianBytes, device_id, election_id]

/-- Witness for C1 at the concrete schema `sampleP4Info`. -/
theorem syn_install_builds_claimed_request_witness :
    insert_syn_flag_entry_request sampleP4Info device_id election_id 0x02 =
      Except.ok
        { device_id := 0
          election_id := { high := 1, low := 0 }
          updates :=
            [{ type := UpdateType.INSERT
               entity :=
                 { table_entry :=
                     { table_id := 1
                       «match» :=
                         [{ field_id := 10
                            ternary := { value := [0x02], mask := [0x02] } }]
                       action := { action := { action_id := 5 } }
                       priority := 100 } } }] } :=
  syn_install_builds_claimed_request sampleP4Info (by decide) (by decide) (by decide)

/-- C2: on a schema resolving `MyIngress.syn_flag_table` to 1 and
`MyIngress._drop` to 6, the default-drop builder produces exactly one
WriteRequest holding one INSERT update whose TableEntry has table_id 1, an
empty match list, action 6 and priority 10. -/
theorem default_drop_builds_claimed_request (p4info : P4Info)
    (ht : get_id p4info "table" "MyIngress.syn_flag_table" = GetIdResult.id 1)
    (ha : get_id p4info "action" "MyIngress._drop" = GetIdResult.id 6) :
    insert_default_drop_entry_request p4info device_id election_id =
      { device_id := 0
        election_id := { high := 1, low := 0 }
        updates :=
          [{ type := UpdateType.INSERT
             entity :=
               { table_entry :=
                   { table_id := 1
                     «match» := []
                     action := { action := { action_id := 6 } }
                     priority := 10 } } }] } := by
  simp [insert_default_drop_entry_request, ht, ha, protoScalar, device_id, election_id]

/-- Witness for C2 at the concrete schema `sampleP4Info`. -/
theorem default_drop_builds_claimed_request_witness :
    insert_default_drop_entry_request sampleP4Info device_id election_id =
      { device_id := 0
        election_id := { high := 1, low := 0 }
        updates :=
          [{ type := UpdateType.INSERT
             entity :=
               { table_entry :=
                   { table_id := 1
                     «match» := []
                     action := { action := { action_id := 6 } }
                     priority := 10 } } }] } :=
  default_drop_builds_claimed_request sampleP4Info (by decide) (by decide)

/-- C4: evaluating `get_id` at the failing input. A table or action name that
does not exist returns the Python `None`, as the resolver's final
`return None` promises — but a header-field name that does not exist raises
`UnboundLocalError` (the `"header_field"` branch falls through to
`for entity in entities:` with `entities` never assigned) instead of reaching
that `return None`. -/
theorem get_id_header_field_not_found_crashes :
    get_id sampleP4Info "table" "no.such.table" = GetIdResult.noneRes ∧
    get_id sampleP4Info "action" "no.such.action" = GetIdResult.noneRes ∧
    get_id sampleP4Info "header_field" "no.such.field" = GetIdResult.unboundLocalError := by
  decide

/-- C10: for every entity type other than `"table"`, `"action"` and
`"header_field"`, `get_id` returns `None` after printing the
unsupported-entity-type diagnostic, without raising and without consulting the
schema (the result is the same for every schema, since no collection is
scanned). -/
theorem get_id_unsupported_type_returns_none (p4info p4info' : P4Info)
    (entity_type entity_name : String)
    (h1 : entity_type ≠ "table") (h2 : entity_type ≠ "action")
    (h3 : entity_type ≠ "header_field") :
    get_id p4info entity_type entity_name = GetIdResult.noneRes ∧
    get_id_diag p4info entity_type entity_name = GetIdDiag.unsupportedType ∧
    get_id p4info entity_type entity_name = get_id p4info' entity_type entity_name := by
  simp [get_id, get_id_diag, h1, h2, h3]

/-- Witness for C10 at entity type `"counter"`. -/
theorem get_id_unsupported_type_returns_none_witness :
    get_id sampleP4Info "counter" "x" = GetIdResult.noneRes ∧
    get_id_diag sampleP4Info "counter" "x" = GetIdDiag.unsupportedType ∧
    get_id sampleP4Info "counter" "x" = get_id ⟨[], []⟩ "counter" "x" :=
  get_id_unsupported_type_returns_none sampleP4Info ⟨[], []⟩ "counter" "x"
    (by decide) (by decide) (by decide)

/-- C5 counterexample: on `wideFieldP4Info` the flags field resolves with
declared bitwidth 16, so a ceil(bitwidth/8)-byte encoding would be 2 bytes —
but the builder emits a single byte for both value and mask (the length `1` is
hard-coded in the `to_bytes` calls, the resolved bitwidth is only printed). -/
theorem syn_ternary_length_ignores_bitwidth :
    get_id wideFieldP4Info "header_field" "hdr.tcp.flags" = GetIdResult.fieldInfo 10 16 ∧
    (insert_syn_flag_entry_request wideFieldP4Info device_id election_id 0x02).toOption.map
        (fun r => (requestTernaries r).map (fun t => (t.value.length, t.mask.length)))
      = some [(1, 1)] ∧
    (16 + 7) / 8 = 2 := by
  decide

/-- C5 (amended): the ternary encoding is always exactly one big-endian byte
for value and mask, whatever bitwidth the field resolved to — the lengths
agree (both 1, equal to ceil(bitwidth/8) only when that is 1) and decoding the
bytes big-endian recovers the value and the mask 0x02, provided the value fits
one byte. -/
theorem syn_ternary_single_byte_encoding (p4info : P4Info) (fid bw v : Nat)
    (hf : get_id p4info "header_field" "hdr.tcp.flags" = GetIdResult.fieldInfo fid bw)
    (hv : v < 256) :
    (insert_syn_flag_entry_request p4info device_id election_id v).toOption.map requestTernaries
      = some [{ value := bigEndianBytes v 1, mask := bigEndianBytes 0x02 1 }] ∧
    (bigEndianBytes v 1).length = 1 ∧
    (bigEndianBytes 0x02 1).length = 1 ∧
    fromBytesBE (bigEndianBytes v 1) = v ∧
    fromBytesBE (bigEndianBytes 0x02 1) = 0x02 := by
  refine ⟨?_, ?_, ?_, ?_, ?_⟩
  · simp [insert_syn_flag_entry_request, hf, to_bytes, hv, requestTernaries,
      requestEntries, Except.toOption]
  · simp [bigEndianBytes]
  · simp [bigEndianBytes]
  · simp [bigEndianBytes, fromBytesBE, Nat.mod_eq_of_lt hv]
  · simp [bigEndianBytes, fromBytesBE]

/-- Witness for the amended C5 at `sampleP4Info` with value 7. -/
theorem syn_ternary_single_byte_encoding_witness :
    (insert_syn_flag_entry_request sampleP4Info device_id election_id 7).toOption.map requestTernaries
      = some [{ value := bigEndianBytes 7 1, mask := bigEndianBytes 0x02 1 }] ∧
    (bigEndianBytes 7 1).length = 1 ∧
    (bigEndianBytes 0x02 1).length = 1 ∧
    fromBytesBE (bigEndianBytes 7 1) = 7 ∧
    fromBytesBE (bigEndianBytes 0x02 1) = 0x02 :=
  syn_ternary_single_byte_encoding sampleP4Info 10 8 7 (by decide) (by decide)

/-- C9 counterexample: calling the SYN-install builder with argument `0x04`
yields mask bytes `[0x02]`, not the big-endian encoding `[0x04]` of the
argument — the argument lands in the value bytes, the mask is hard-coded. -/
theorem syn_mask_not_from_argument :
    (insert_syn_flag_entry_request sampleP4Info device_id election_id 0x04).toOption.map requestTernaries
      = some [{ value := [0x04], mask := [0x02] }] ∧
    bigEndianBytes 0x04 1 ≠ [0x02] := by
  decide

/-- C9 (amended): the caller-supplied third argument determines the installed
value bytes (its one-byte big-endian encoding); the mask bytes are the fixed
`[0x02]`, identical for any two argument values. -/
theorem syn_argument_sets_value_not_mask (p4info : P4Info) (fid bw v w : Nat)
    (hf : get_id p4info "header_field" "hdr.tcp.flags" = GetIdResult.fieldInfo fid bw)
    (hv : v < 256) (hw : w < 256) :
    (insert_syn_flag_entry_request p4info device_id election_id v).toOption.map
        (fun r => (requestTernaries r).map Ternary.value) = some [bigEndianBytes v 1] ∧
    (insert_syn_flag_entry_request p4info device_id election_id v).toOption.map
        (fun r => (requestTernaries r).map Ternary.mask) = some [[0x02]] ∧
    (insert_syn_flag_entry_request p4info device_id election_id v).toOption.map
        (fun r => (requestTernaries r).map Ternary.mask) =
      (insert_syn_flag_entry_request p4info device_id election_id w).toOption.map
        (fun r => (requestTernaries r).map Ternary.mask) := by
  refine ⟨?_, ?_, ?_⟩ <;>
    simp [insert_syn_flag_entry_request, hf, to_bytes, hv, hw, requestTernaries,
      requestEntries, bigEndianBytes, Except.toOption]

/-- Witness for the amended C9 at `sampleP4Info` with arguments 9 and 12. -/
theorem syn_argument_sets_value_not_mask_witness :
    (insert_syn_flag_entry_request sampleP4Info device_id election_id 9).toOption.map
        (fun r => (requestTernaries r).map Ternary.value) = some [bigEndianBytes 9 1] ∧
    (insert_syn_flag_entry_request sampleP4Info device_id election_id 9).toOption.map
        (fun r => (requestTernaries r).map Ternary.mask) = some [[0x02]] ∧
    (insert_syn_flag_entry_request sampleP4Info device_id election_id 9).toOption.map
        (fun r => (requestTernaries r).map Ternary.mask) =
      (insert_syn_flag_entry_request sampleP4Info device_id election_id 12).toOption.map
        (fun r => (requestTernaries r).map Ternary.mask) :=
  syn_argument_sets_value_not_mask sampleP4Info 10 8 9 12 (by decide) (by decide) (by decide)

/-- C8 counterexample: on `noSynTableP4Info` the syn table name does not
resolve (`get_id` returns the Python `None`), yet `insert_syn_flag_entry`
raises nothing — it builds and transmits a WriteRequest whose entry carries
the protobuf-default table_id 0 and finishes successfully. -/
theorem unresolved_table_still_transmitted :
    get_id noSynTableP4Info "table" "MyIngress.syn_flag_table" = GetIdResult.noneRes ∧
    (insert_syn_flag_entry noSynTableP4Info device_id election_id ackStub 0x02).1.map requestTableIds
      = [[0]] ∧
    (insert_syn_flag_entry noSynTableP4Info device_id election_id ackStub 0x02).2.2
      = Except.ok () := by
  decide

/-- C8 (amended): when the match-field name fails to resolve the SYN install
dies before any write, but with `get_id`'s `UnboundLocalError`, not a
descriptive diagnostic; when the table name or an action name fails to
resolve, neither install fails — each still constructs and transmits a
TableEntry carrying the protobuf default 0 in place of the unresolved ID
(table_id 0 for a missing table, action_id 0 for a missing action). -/
theorem resolution_failure_handling (p4info : P4Info) (did : Nat) (eid : Nat × Nat)
    (stub : WriteRequest → Option RpcError) (v fid bw : Nat) :
    (get_id p4info "header_field" "hdr.tcp.flags" = GetIdResult.unboundLocalError →
      insert_syn_flag_entry p4info did eid stub v = ([], none, Except.error PyError.unboundLocal)) ∧
    (get_id p4info "table" "MyIngress.syn_flag_table" = GetIdResult.noneRes →
      get_id p4info "header_field" "hdr.tcp.flags" = GetIdResult.fieldInfo fid bw →
      v < 256 →
      (insert_syn_flag_entry p4info did eid stub v).1.map requestTableIds = [[0]]) ∧
    (get_id p4info "header_field" "hdr.tcp.flags" = GetIdResult.fieldInfo fid bw →
      get_id p4info "action" "MyIngress.forward_to_controller" = GetIdResult.noneRes →
      v < 256 →
      (insert_syn_flag_entry p4info did eid stub v).1.map requestActionIds = [[0]]) ∧
    (get_id p4info "table" "MyIngress.syn_flag_table" = GetIdResult.noneRes →
      (insert_default_drop_entry p4info did eid stub).1.map requestTableIds = [[0]]) ∧
    (get_id p4info "action" "MyIngress._drop" = GetIdResult.noneRes →
      (insert_default_drop_entry p4info did eid stub).1.map requestActionIds = [[0]]) := by
  refine ⟨?_, ?_, ?_, ?_, ?_⟩
  · intro h
    simp [insert_syn_flag_entry, insert_syn_flag_entry_request, h]
  · intro ht hf hv
    simp [insert_syn_flag_entry, insert_syn_flag_entry_request, ht, hf, to_bytes, hv,
      protoScalar, requestTableIds, requestEntries]
  · intro hf ha hv
    simp [insert_syn_flag_entry, insert_syn_flag_entry_request, hf, ha, to_bytes, hv,
      protoScalar, requestActionIds, requestEntries]
  · intro ht
    simp [insert_default_drop_entry, insert_default_drop_entry_request, ht,
      protoScalar, requestTableIds, requestEntries]
  · intro ha
    simp [insert_default_drop_entry, insert_default_drop_entry_request, ha,
      protoScalar, requestActionIds, requestEntries]

/-- Witness for the amended C8: a schema with no tables at all makes the field
lookup crash before any write; `noSynTableP4Info` makes both installs transmit
table_id 0; `noActionsP4Info` makes both installs transmit action_id 0. -/
theorem resolution_failure_handling_witness :
    insert_syn_flag_entry ⟨[], []⟩ device_id election_id ackStub 2
      = ([], none, Except.error PyError.unboundLocal) ∧
    (insert_syn_flag_entry noSynTableP4Info device_id election_id ackStub 2).1.map requestTableIds
      = [[0]] ∧
    (insert_syn_flag_entry noActionsP4Info device_id election_id ackStub 2).1.map requestActionIds
      = [[0]] ∧
    (insert_default_drop_entry noSynTableP4Info device_id election_id ackStub).1.map requestTableIds
      = [[0]] ∧
    (insert_default_drop_entry noActionsP4Info device_id election_id ackStub).1.map requestActionIds
      = [[0]] :=
  ⟨(resolution_failure_handling ⟨[], []⟩ device_id election_id ackStub 2 0 0).1 (by decide),
   (resolution_failure_handling noSynTableP4Info device_id election_id ackStub 2 10 8).2.1
     (by decide) (by decide) (by decide),
   (resolution_failure_handling noActionsP4Info device_id election_id ackStub 2 10 8).2.2.1
     (by decide) (by decide) (by decide),
   (resolution_failure_handling noSynTableP4Info device_id election_id ackStub 2 10 8).2.2.2.1
     (by decide),
   (resolution_failure_handling noActionsP4Info device_id election_id ackStub 2 10 8).2.2.2.2
     (by decide)⟩

/-- C7: whenever the transport rejects a write with an RPC error, each install
function surfaces the structured diagnostic (status code, detail, raw
diagnostic payload of that very error) and re-raises the same exception — the
request was attempted exactly once and the outcome is never a success. -/
theorem rpc_failure_reraised (p4info : P4Info) (did : Nat) (eid : Nat × Nat)
    (stub : WriteRequest → Option RpcError) (v : Nat) (req dreq : WriteRequest)
    (e e' : RpcError)
    (hreq : insert_syn_flag_entry_request p4info did eid v = Except.ok req)
    (he : stub req = some e)
    (hdreq : insert_default_drop_entry_request p4info did eid = dreq)
    (he' : stub dreq = some e') :
    insert_syn_flag_entry p4info did eid stub v =
      ([req],
       some { status_code := e.code, details := e.details,
              debug_error_string := e.debug_error_string },
       Except.error (PyError.rpc e)) ∧
    insert_default_drop_entry p4info did eid stub =
      ([dreq],
       some { status_code := e'.code, details := e'.details,
              debug_error_string := e'.debug_error_string },
       Except.error (PyError.rpc e')) := by
  constructor
  · simp [insert_syn_flag_entry, hreq, try_write, he]
  · simp [insert_default_drop_entry, hdreq, try_write, he']

/-- Witness for C7: the rejecting stub on `sampleP4Info`. -/
theorem rpc_failure_reraised_witness :
    insert_syn_flag_entry sampleP4Info device_id election_id failStub 0x02 =
      ([sampleSynRequest],
       some { status_code := sampleRpcError.code, details := sampleRpcError.details,
              debug_error_string := sampleRpcError.debug_error_string },
       Except.error (PyError.rpc sampleRpcError)) ∧
    insert_default_drop_entry sampleP4Info device_id election_id failStub =
      ([sampleDropRequest],
       some { status_code := sampleRpcError.code, details := sampleRpcError.details,
              debug_error_string := sampleRpcError.debug_error_string },
       Except.error (PyError.rpc sampleRpcError)) :=
  rpc_failure_reraised sampleP4Info device_id election_id failStub 0x02
    sampleSynRequest sampleDropRequest sampleRpcError sampleRpcError
    (by decide) (by decide) (by decide) (by decide)

/-- C6: the script is strictly sequential — pipeline configuration, then the
SYN install, then the default-drop install. A pipeline failure yields no write
attempt at all; an exception in the SYN install ends the script with exactly
the SYN install's write attempts and the drop install never runs; only when
the SYN install succeeds is the drop request attempted, after the SYN one. -/
theorem script_sequencing (pipeline : Except String P4Info)
    (stub : WriteRequest → Option RpcError) :
    (∀ msg, pipeline = Except.error msg →
      script_main pipeline stub = ([], some (PyError.pipelineError msg))) ∧
    (∀ p4info, pipeline = Except.ok p4info →
      (∀ e, (insert_syn_flag_entry p4info device_id election_id stub 0x002).2.2 = Except.error e →
        script_main pipeline stub =
          ((insert_syn_flag_entry p4info device_id election_id stub 0x002).1, some e)) ∧
      ((insert_syn_flag_entry p4info device_id election_id stub 0x002).2.2 = Except.ok () →
        (script_main pipeline stub).1 =
          (insert_syn_flag_entry p4info device_id election_id stub 0x002).1 ++
            (insert_default_drop_entry p4info device_id election_id stub).1)) := by
  constructor
  · rintro msg rfl
    simp [script_main]
  · rintro p4info rfl
    constructor
    · intro e he
      simp [script_main, he]
    · intro hok
      cases hd : (insert_default_drop_entry p4info device_id election_id stub).2.2 <;>
        simp [script_main, hok, hd]

/-- Witness for C6: a failed pipeline step produces no write attempt. -/
theorem script_sequencing_witness :
    script_main (Except.error "device rejected config") ackStub
      = ([], some (PyError.pipelineError "device rejected config")) :=
  (script_sequencing (Except.error "device rejected config") ackStub).1
    "device rejected config" rfl

/-- C3: under the claimed schema resolution the SYN entry has priority 100 and
the drop entry priority 10, and any flags byte with bit 0x02 set structurally
matches both entries (the SYN one through its ternary match, the drop one as a
wildcard), so a conformant higher-priority-wins device selects the SYN entry
whichever order the two entries are compared in. -/
theorem syn_entry_wins_priority (p4info : P4Info) (synReq : WriteRequest)
    (synE dropE : TableEntry) (flags : Nat)
    (ht : get_id p4info "table" "MyIngress.syn_flag_table" = GetIdResult.id 1)
    (hf : get_id p4info "header_field" "hdr.tcp.flags" = GetIdResult.fieldInfo 10 8)
    (ha : get_id p4info "action" "MyIngress.forward_to_controller" = GetIdResult.id 5)
    (hd : get_id p4info "action" "MyIngress._drop" = GetIdResult.id 6)
    (hreq : insert_syn_flag_entry_request p4info device_id election_id 0x02 = Except.ok synReq)
    (hsynE : synE ∈ requestEntries synReq)
    (hdropE : dropE ∈ requestEntries (insert_default_drop_entry_request p4info device_id election_id))
    (hflags : flags < 256) (hbit : flags.testBit 1 = true) :
    synE.priority = 100 ∧ dropE.priority = 10 ∧ synE.priority > dropE.priority ∧
    entryMatchesFlags synE flags = true ∧
    entryMatchesFlags dropE flags = true ∧
    selectByPriority synE dropE flags = some synE ∧
    selectByPriority dropE synE flags = some synE := by
  have hsyn : insert_syn_flag_entry_request p4info device_id election_id 0x02 =
      Except.ok sampleSynRequest := by
    simp [insert_syn_flag_entry_request, ht, hf, ha, to_bytes, protoScalar,
      bigEndianBytes, device_id, election_id, sampleSynRequest]
  rw [hsyn] at hreq
  injection hreq with h
  subst h
  have hdrop : insert_default_drop_entry_request p4info device_id election_id =
      sampleDropRequest := by
    simp [insert_default_drop_entry_request, ht, hd, protoScalar, device_id,
      election_id, sampleDropRequest]
  rw [hdrop] at hdropE
  simp [sampleSynRequest, requestEntries] at hsynE
  simp [sampleDropRequest, requestEntries] at hdropE
  subst hsynE
  subst hdropE
  have hand : flags &&& 2 = 2 := by
    have h2 := Nat.and_two_pow flags 1
    rw [hbit] at h2
    simpa using h2
  refine ⟨rfl, rfl, by norm_num, ?_, ?_, ?_, ?_⟩ <;>
    simp [entryMatchesFlags, fieldMatchAccepts, fromBytesBE, selectByPriority, hand]

/-- Witness for C3 at `sampleP4Info`, flags byte 0x12 (SYN plus another bit). -/
theorem syn_entry_wins_priority_witness :
    sampleSynEntry.priority = 100 ∧ sampleDropEntry.priority = 10 ∧
    sampleSynEntry.priority > sampleDropEntry.priority ∧
    entryMatchesFlags sampleSynEntry 0x12 = true ∧
    entryMatchesFlags sampleDropEntry 0x12 = true ∧
    selectByPriority sampleSynEntry sampleDropEntry 0x12 = some sampleSynEntry ∧
    selectByPriority sampleDropEntry sampleSynEntry 0x12 = some sampleSynEntry :=
  syn_entry_wins_priority sampleP4Info sampleSynRequest sampleSynEntry sampleDropEntry 0x12
    (by decide) (by decide) (by decide) (by decide) (by decide) (by decide) (by decide)
    (by decide) (by decide)

end Sparq
